import Mathlib

/-!
Shallow embedding of `fx5.py`, a client for the Mitsubishi FX5 SLMP binary
request/response protocol over TCP.

Modelling conventions:
- Python machine-free integers are `Nat`/`Int`; Python bitwise operators on
  non-negative values map to the `Nat` operators, and the two's-complement
  bitwise operators on possibly negative values map to `Int.lor`/`Int.land`.
- Byte buffers and Python strings are `List Nat` (byte values / character codes).
- A raised Python exception is an `Except.error` carrying an `Err` value;
  `struct.error` from an out-of-range `struct.pack` argument is `Option.none`.
- The transport state visible to the claims is the `__isopen` flag.
-/

namespace FX5

/-- `to_int16_unsigned(upper, lower)` from `fx5.py`: `(upper<<8) + lower`. -/
def to_int16_unsigned (upper lower : Nat) : Nat :=
  (upper <<< 8) + lower

/-- `to_int16_signed(upper, lower)` from `fx5.py`:
`num = (upper<<8) + lower; -(num & 0x8000) | (num & 0x7fff)`, with Python's
two's-complement bitwise semantics on unbounded integers. -/
def to_int16_signed (upper lower : Nat) : Int :=
  Int.lor (-(Int.land ((((upper <<< 8) + lower : Nat)) : Int) 0x8000))
    (Int.land ((((upper <<< 8) + lower : Nat)) : Int) 0x7fff)

/-- `to_string(upper, lower)` from `fx5.py`:
`(chr(upper) if upper != 0 else '') + (chr(lower) if lower != 0 else '')`,
with strings modelled as lists of character codes. -/
def to_string (upper lower : Nat) : List Nat :=
  (if upper ≠ 0 then [upper] else []) ++ (if lower ≠ 0 then [lower] else [])

/-- `to_2bite_signed(num)` from `fx5.py`: `struct.unpack('BB', struct.pack('H', num))`.
`struct.pack('H', num)` raises `struct.error` unless `0 <= num <= 65535`
(modelled as `none`); in range it yields the little-endian bytes (low, high). -/
def to_2bite_signed (num : Int) : Option (Nat × Nat) :=
  if 0 ≤ num ∧ num ≤ 65535 then some (num.toNat % 256, num.toNat / 256) else none

/-- `to_ascii(str_data)` from `fx5.py`: the (lower, upper) character codes of a
string of length 0, 1 or 2; missing characters become 0. -/
def to_ascii (str_data : List Nat) : Nat × Nat :=
  if str_data.length = 2 then (str_data.getD 0 0, str_data.getD 1 0)
  else if str_data.length = 1 then (str_data.getD 0 0, 0)
  else (0, 0)

/-- The `FX5.__error` table from `fx5.py`, verbatim. -/
def error : List (Nat × String) := [
  (0x1920, "The value of the IP address setting (SD8492 to SD8497) is out of the setting range. "),
  (0x1921, "The write request and the clear request (SM8492, SM8495) were turned off and on at the same time. "),
  (0x112E, "Connection not established during open processing. "),
  (0x1134, "A TCP ULP timeout error occurred during TCP / IP communication (ACK was not returned from the partner device). "),
  (0x2160, "A duplicate IP address has been detected. "),
  (0x2250, "The protocol setting data stored in the CPU unit is not a usable unit. "),
  (0xC012, "Open processing with the partner device failed. (For TCP / IP) "),
  (0xC013, "The open processing with the partner device failed. (For UDP / IP) "),
  (0xC015, "There is an error in the setting value of the IP address of the external device during open processing, or the setting of the IP address of the external device in the dedicated command. "),
  (0xC018, "The setting of the IP address of the partner device is incorrect. "),
  (0xC020, "The transmission / reception data length exceeds the allowable range. "),
  (0xC024, "Communication using communication protocol was performed in connection other than communication protocol. "),
  (0xC025, "The content of the control data is incorrect or the open setting parameter has not been set, but the open setting parameter was specified. "),
  (0xC027, "Message transmission of socket communication failed. "),
  (0xC029, "The content of the control data is incorrect, or the open setting parameter was specified as open without setting. "),
  (0xC035, "The existence of the partner device could not be confirmed within the response monitoring timer value. "),
  (0xC0B6, "The channel specified by the dedicated instruction is out of range. "),
  (0xC0DE, "Failed to receive message for socket communication. "),
  (0xC1A2, "Response to request could not be received. "),
  (0xC1AC, "The number of retransmissions is incorrect. "),
  (0xC1AD, "The data length is incorrectly specified. "),
  (0xC1AF, "The port number is incorrectly specified. "),
  (0xC1B0, "The specified connection has already been opened. "),
  (0xC1B1, "The specified connection has not completed open processing. "),
  (0xC1B3, "Another transmission / reception command is being executed on the specified channel. "),
  (0xC1B4, "The arrival time specification is incorrect. "),
  (0xC1BA, "The dedicated instruction was executed in the initial uncompleted state. "),
  (0xC1C6, "There is an error in the setting of the execution type of the dedicated instruction and the completion type when an error occurs. "),
  (0xC1CC, "Response with a data length exceeding the allowable range in SLMPSND was received, or the request data was specified incorrectly. "),
  (0xC1CD, "Failed to send message of SLMPSND command. "),
  (0xC1D0, "The request destination module I / O number of the dedicated instruction is incorrect. "),
  (0xC1D3, "A dedicated command not supported by the connection communication method was executed. "),
  (0xC400, "The SP.ECPRTCL instruction was executed when communication protocol preparation was not completed (SD10692 = 0). "),
  (0xC401, "Specified a protocol number that is not registered in the CPU unit with the control data of the SP.ECPRTCL instruction, or executed the SP.ECPRTCL instruction without writing the protocol setting data. "),
  (0xC404, "The SP.ECPRTCL instruction was abnormally completed while accepting a cancel request during protocol execution. "),
  (0xC405, "In the control data of the SP.ECPRTCL instruction, the set value of the protocol number is out of range. "),
  (0xC410, "Reception waiting time has timed out. "),
  (0xC411, "The received data has exceeded 2046 bytes. "),
  (0xC417, "The data length of received data or the number of data is out of range. "),
  (0xC431, "Connection closed during execution of the SP.ECPRTCL instruction. "),
  (0xCEE0, "Detected from another peripheral device or executed another iQSS function during automatic detection of connected device. "),
  (0xCEE1, "An abnormal frame was received. "),
  (0xCEE2, "An abnormal frame was received. "),
  (0xCF10, "An abnormal frame was received. "),
  (0xCF20, "The communication setting value is out of range, or a communication setting item that cannot be set for the target device has been set, or an item that must be set for the target device has not been set. "),
  (0xCF30, "Parameter not supported by target device was specified. "),
  (0xCF31, "An abnormal frame was received. "),
  (0xCF70, "An error has occurred in the Ethernet communication path. "),
  (0xCF71, "A timeout error has occurred. "),
  (0xC050, "When communication data code is set to ASCII, ASCII code data that cannot be converted to binary was received. "),
  (0xC051, "The maximum number of bit devices that can be read / written at once at one time is out of the allowable range. "),
  (0xC052, "The maximum number of word devices that can be read / written at once at one time is out of the allowable range. "),
  (0xC053, "The maximum number of bit devices that can be randomly read and written at one time is out of the allowable range. "),
  (0xC054, "The maximum number of word devices that can be read / written at random at one time is out of the allowable range. "),
  (0xC056, "Write and read request exceeding the maximum address. "),
  (0xC058, "The required data length after ASCII-binary conversion does not match the number of data in the character part (part of text). "),
  (0xC059, "The command or subcommand specification is incorrect. Commands and subcommands that cannot be used in the CPU unit. "),
  (0xC05B, "The CPU unit cannot write to or read from the specified device. "),
  (0xC05C, "The request content is incorrect. (Such as bit-wise writing and reading for word devices) "),
  (0xC05F, "The request cannot be executed for the target CPU module"),
  (0xC060, "The request content is incorrect. (Such as an incorrect data specification for a bit device) "),
  (0xC061, "The requested data length does not match the number of data in the character part (part of text). "),
  (0xC06F, "ASCII request message was received when the communication data code was set to \"binary.\" (For this error code, only the error history is registered and no abnormal response is returned.) "),
  (0xC0D8, "The specified number of blocks is out of range"),
  (0xC200, "The remote password is incorrect"),
  (0xC201, "The port used for communication is locked with the remote password"),
  (0xC204, "Different from the partner device that requested unlock processing of the remote password. "),
  (0xC810, "The remote password is incorrect. (Authentication failed 9 times or less) "),
  (0xC815, "The remote password is incorrect. (Authentication failed 10 times) "),
  (0xC816, "Remote password authentication lockout in progress. ")]

/-- The message chosen in `FX5.__send`: the `__error` table entry for `code`
when present, `"unknown error"` otherwise. -/
def errmsg (code : Nat) : String :=
  match error.find? (fun p => p.1 == code) with
  | some p => p.2
  | none => "unknown error"

/-- The transport state visible to the claims: the `FX5.__isopen` flag. -/
structure TransportState where
  isopen : Bool
deriving DecidableEq

/-- The exceptions raised by the response-handling path of `FX5.__send`
(Python raises plain `Exception`s; the spec names the first two kinds
`ConnectionError` and `ProtocolError`; `indexError` models the Python
`IndexError` raised by `result[11+i]` when the declared payload overruns
the received buffer). -/
inductive Err where
  | connectionError (msg : String)
  | protocolError (code : Nat) (msg : String)
  | indexError
deriving DecidableEq

/-- The response-handling core of `FX5.__send`, as a function of the received
buffer `result`. `__open()` has already run, so the state at the moment the
response is examined has `isopen = true` whatever it was before; the
length-check failure is caught by the handler that calls `self.close()`
(setting `isopen := false`) before re-raising, while the two later branches
lie outside that handler. `format(b, '#04x') != '0x00'` holds exactly when
`b ≠ 0`, and the Python loop `for i in range(length)` over
`length = to_int16_signed(result[8], result[7]) - 2` appends
`result[11+i]`, running zero times when `length <= 0` (so `Int.toNat` models
`range` on a possibly negative bound) and raising `IndexError` when the
buffer is too short. -/
def send (_s : TransportState) (result : List Nat) : TransportState × Except Err (List Nat) :=
  if result.length < 11 then
    (⟨false⟩, .error (.connectionError
      ("Connection error. It already may connect other device." ++ toString result.length)))
  else if result.getD 9 0 ≠ 0 ∧ result.getD 10 0 ≠ 0 then
    (⟨true⟩, .error (.protocolError (to_int16_unsigned (result.getD 10 0) (result.getD 9 0))
      (errmsg (to_int16_unsigned (result.getD 10 0) (result.getD 9 0)))))
  else if 11 + (to_int16_signed (result.getD 8 0) (result.getD 7 0) - 2).toNat ≤ result.length then
    (⟨true⟩, .ok ((List.range (to_int16_signed (result.getD 8 0) (result.getD 7 0) - 2).toNat).map
      (fun i => result.getD (11 + i) 0)))
  else
    (⟨true⟩, .error .indexError)

/-- The request frame built by `FX5.__read_m` for device number `devno`
(bit read, device code 0x90, one device point). -/
def read_m_msg (devno : Nat) : List Nat :=
  [0x50, 0x00, 0x00, 0xFF, 0xFF, 0x03, 0x00, 0x0C, 0x00, 0x00, 0x00,
   0x01, 0x04, 0x01, 0x00,
   devno &&& 0xff, (devno >>> 8) &&& 0xff, (devno >>> 16) &&& 0xff,
   0x90, 0x01, 0x00]

/-- The request frame built by `FX5.__write_m` for device number `devno` and
integer value `on` (`FX5.write` passes `int(value)`). The payload byte is
`0x10 if on == True else 0x00`, and in Python an `int` equals `True` exactly
when it equals 1. -/
def write_m_msg (devno : Nat) (on' : Int) : List Nat :=
  [0x50, 0x00, 0x00, 0xFF, 0xFF, 0x03, 0x00, 0x0D, 0x00, 0x00, 0x00,
   0x01, 0x14, 0x01, 0x00,
   devno &&& 0xff, (devno >>> 8) &&& 0xff, (devno >>> 16) &&& 0xff,
   0x90, 0x01, 0x00,
   if on' = 1 then 0x10 else 0x00]

/-- The request frame built by `FX5.__write_d` for device number `devno` once
the payload pair `tuple_data` (low, high) has been computed by
`to_2bite_signed` or `to_ascii`. -/
def write_d_msg (devno : Nat) (tuple_data : Nat × Nat) : List Nat :=
  [0x50, 0x00, 0x00, 0xFF, 0xFF, 0x03, 0x00, 0x0E, 0x00, 0x00, 0x00,
   0x01, 0x14, 0x00, 0x00,
   devno &&& 0xff, (devno >>> 8) &&& 0xff, (devno >>> 16) &&& 0xff,
   0xA8, 0x01, 0x00,
   tuple_data.1, tuple_data.2]

end FX5

/-- C2: the bit-read frame built for device index 1600 (address M1600) is exactly
the 21-byte sequence required by the spec fixture. -/
theorem c2_read_m_frame_M1600 :
    FX5.read_m_msg 1600 = [0x50, 0x00, 0x00, 0xFF, 0xFF, 0x03, 0x00, 0x0C, 0x00, 0x00, 0x00,
      0x01, 0x04, 0x01, 0x00, 0x40, 0x06, 0x00, 0x90, 0x01, 0x00] := by
  decide

/-- C1: the claim fails on the code. For the 11-byte response below, the 16-bit
error indicator decoded from byte 9 (low) and byte 10 (high) is 0x0100 = 256 ≠ 0,
yet the parse succeeds with an empty payload instead of raising a protocol error,
because `FX5.__send` only raises when byte 9 and byte 10 are each nonzero. -/
theorem c1_nonzero_indicator_missed :
    FX5.to_int16_unsigned (([0, 0, 0, 0, 0, 0, 0, 2, 0, 0, 1] : List Nat).getD 10 0)
        (([0, 0, 0, 0, 0, 0, 0, 2, 0, 0, 1] : List Nat).getD 9 0) = 256 ∧
    FX5.send ⟨true⟩ [0, 0, 0, 0, 0, 0, 0, 2, 0, 0, 1] = (⟨true⟩, .ok []) := by
  constructor
  · rfl
  · rfl

/-- C3: encoding a value in [0, 65535] with `to_2bite_signed` gives a (low, high)
byte pair, and decoding that pair with `to_int16_unsigned` (high byte as first
argument, low byte as second) returns the original value. -/
theorem c3_encode16_roundtrip (v : Int) (h0 : 0 ≤ v) (h1 : v ≤ 65535) :
    (FX5.to_2bite_signed v).map
      (fun p => ((FX5.to_int16_unsigned p.2 p.1 : Nat) : Int)) = some v := by
  have hsome : FX5.to_2bite_signed v = some (v.toNat % 256, v.toNat / 256) := by
    unfold FX5.to_2bite_signed
    rw [if_pos ⟨h0, h1⟩]
  rw [hsome]
  have h256 : (2 : Nat) ^ 8 = 256 := by norm_num
  have hnat : FX5.to_int16_unsigned (v.toNat / 256) (v.toNat % 256) = v.toNat := by
    unfold FX5.to_int16_unsigned
    rw [Nat.shiftLeft_eq, h256]
    omega
  show some ((FX5.to_int16_unsigned (v.toNat / 256) (v.toNat % 256) : Nat) : Int) = some v
  rw [hnat, Int.toNat_of_nonneg h0]

/-- C3 witness at v = 40000. -/
theorem c3_encode16_roundtrip_witness :
    (FX5.to_2bite_signed 40000).map
      (fun p => ((FX5.to_int16_unsigned p.2 p.1 : Nat) : Int)) = some 40000 :=
  c3_encode16_roundtrip 40000 (by decide) (by decide)

/-- C4: whenever the received response is shorter than 11 bytes, the exchange
fails with the connection error and the returned transport state is closed
(`isopen = false`), i.e. the transport is torn down before the error reaches the
caller. -/
theorem c4_short_response_closes (s : FX5.TransportState) (result : List Nat)
    (h : result.length < 11) :
    FX5.send s result = (⟨false⟩, .error (.connectionError
      ("Connection error. It already may connect other device." ++
        toString result.length))) := by
  unfold FX5.send
  rw [if_pos h]

/-- C4 witness at the empty response. -/
theorem c4_short_response_closes_witness :
    FX5.send ⟨true⟩ [] = (⟨false⟩, .error (.connectionError
      ("Connection error. It already may connect other device." ++
        toString (List.length ([] : List Nat))))) :=
  c4_short_response_closes ⟨true⟩ [] (by decide)

/-- C5: for a response of length ≥ 11 whose error indicator is zero (bytes 9 and
10 both zero) and which contains the declared payload, the parse succeeds and
returns the bytes at positions 11 .. 11 + length - 1, where
length = to_int16_signed(byte 8, byte 7) - 2; when that length is zero or
negative, `Int.toNat` clamps it to 0, `List.range 0 = []`, so the payload is
empty and no error is raised. -/
theorem c5_payload_extraction (s : FX5.TransportState) (result : List Nat)
    (hlen : 11 ≤ result.length)
    (h9 : result.getD 9 0 = 0) (h10 : result.getD 10 0 = 0)
    (hfit : 11 + (FX5.to_int16_signed (result.getD 8 0) (result.getD 7 0) - 2).toNat
      ≤ result.length) :
    FX5.send s result = (⟨true⟩, .ok ((List.range
      (FX5.to_int16_signed (result.getD 8 0) (result.getD 7 0) - 2).toNat).map
      (fun i => result.getD (11 + i) 0))) := by
  unfold FX5.send
  rw [if_neg (by omega), if_neg (fun hc => hc.1 h9), if_pos hfit]

/-- C5 witness: a 13-byte response declaring a 4-byte body (2 payload bytes after
the end code), with payload bytes 42 and 43; also exercised at computed length 0
via the theorem statement itself. -/
theorem c5_payload_extraction_witness :
    FX5.send ⟨false⟩ [0, 0, 0, 0, 0, 0, 0, 4, 0, 0, 0, 42, 43] = (⟨true⟩, .ok ((List.range
      (FX5.to_int16_signed (([0, 0, 0, 0, 0, 0, 0, 4, 0, 0, 0, 42, 43] : List Nat).getD 8 0)
        (([0, 0, 0, 0, 0, 0, 0, 4, 0, 0, 0, 42, 43] : List Nat).getD 7 0) - 2).toNat).map
      (fun i => ([0, 0, 0, 0, 0, 0, 0, 4, 0, 0, 0, 42, 43] : List Nat).getD (11 + i) 0))) :=
  c5_payload_extraction ⟨false⟩ [0, 0, 0, 0, 0, 0, 0, 4, 0, 0, 0, 42, 43]
    (by decide) (by decide) (by decide) (by decide)

/-- C6: counterexample to the claim. Writing the integer value 2 to a bit device
produces payload byte 0x00, not 0x10, because `FX5.__write_m` tests `on == True`
and in Python the `int` 2 does not equal `True` (only 1 does) — so "nonzero means
true" is false on the code. -/
theorem c6_write_two_counterexample :
    (FX5.write_m_msg 1600 2).getD 21 0 = 0x00 ∧
    ¬ (FX5.write_m_msg 1600 2).getD 21 0 = 0x10 := by
  constructor
  · rfl
  · decide

/-- C6 amended: for every bit-device write, the frame's single payload byte is
0x10 exactly when the integer value equals 1, and 0x00 for every other value —
including every other nonzero value, such as 2. -/
theorem c6_write_m_payload_byte (devno : Nat) (on' : Int) :
    (FX5.write_m_msg devno on').getD 21 0 = if on' = 1 then 0x10 else 0x00 := rfl

/-- C7: counterexample to the claim. `to_2bite_signed 65536` does not return the
byte pair (0, 0): `struct.pack('H', 65536)` raises `struct.error` (the argument
is out of the range [0, 65535]), modelled as `none`. -/
theorem c7_encode16_65536_counterexample :
    FX5.to_2bite_signed 65536 = none ∧
    ¬ FX5.to_2bite_signed 65536 = some (0, 0) := by
  constructor
  · rfl
  · decide

/-- C7 amended: `to_2bite_signed` does range-check its input through the pack
operation: every input above 65535 (such as 65536), and every negative input,
fails with `struct.error` instead of wrapping to its low 16 bits. -/
theorem c7_encode16_range_check (num : Int) (h : 65535 < num ∨ num < 0) :
    FX5.to_2bite_signed num = none := by
  unfold FX5.to_2bite_signed
  rw [if_neg (by omega)]

/-- C7 amended witness at 65536. -/
theorem c7_encode16_range_check_witness :
    FX5.to_2bite_signed 65536 = none :=
  c7_encode16_range_check 65536 (Or.inl (by decide))

/-- C8: the claim is right and the code is wrong: no read or write fails for a
device index needing more than 24 bits. The frame builders mask the index to its
low 24 bits, so the bit-read frame and the word-write frame for index 2^24 are
built (no failure occurs anywhere before them) and are byte-identical to the
frames for index 0. -/
theorem c8_index_truncated_not_rejected :
    FX5.read_m_msg (2 ^ 24) = FX5.read_m_msg 0 ∧
    FX5.write_d_msg (2 ^ 24) (30, 0) = FX5.write_d_msg 0 (30, 0) := by
  constructor
  · rfl
  · rfl

/-- C9: for every string (list of character codes) of length at most 2 containing
no code 0, encoding with `to_ascii` and decoding the resulting (low, high) pair
with `to_string` (low byte passed as first argument, as `FX5.__read_d` does)
returns the original string; moreover `to_string 0 66` is a one-character string,
not a two-character string with an embedded null. -/
theorem c9_ascii_roundtrip :
    (∀ s : List Nat, s.length ≤ 2 → (∀ c ∈ s, c ≠ 0) →
      FX5.to_string (FX5.to_ascii s).1 (FX5.to_ascii s).2 = s) ∧
    (FX5.to_string 0 66).length = 1 := by
  constructor
  · intro s hlen hnz
    match s with
    | [] => rfl
    | [a] =>
      have ha := hnz a (by simp)
      simp [FX5.to_ascii, FX5.to_string, ha]
    | [a, b] =>
      have ha := hnz a (by simp)
      have hb := hnz b (by simp)
      simp [FX5.to_ascii, FX5.to_string, ha, hb]
  · rfl

/-- C9 witness: the two-character string "AB" (codes 65, 66) round-trips. -/
theorem c9_ascii_roundtrip_witness :
    FX5.to_string (FX5.to_ascii [65, 66]).1 (FX5.to_ascii [65, 66]).2 = [65, 66] :=
  c9_ascii_roundtrip.1 [65, 66] (by decide) (by decide)

/-- C10: when a response of length ≥ 11 arrives with both indicator bytes
nonzero, the parse fails with the protocol error carrying the decoded 16-bit
code, and the returned transport state is still open (`isopen = true`, exactly
the state established by `__open` before the error was detected): the raise sits
outside the handler that closes the transport, so the next call reuses the open
connection. -/
theorem c10_protocol_error_keeps_open (s : FX5.TransportState) (result : List Nat)
    (hlen : 11 ≤ result.length)
    (h9 : result.getD 9 0 ≠ 0) (h10 : result.getD 10 0 ≠ 0) :
    FX5.send s result = (⟨true⟩, .error (.protocolError
      (FX5.to_int16_unsigned (result.getD 10 0) (result.getD 9 0))
      (FX5.errmsg (FX5.to_int16_unsigned (result.getD 10 0) (result.getD 9 0))))) := by
  unfold FX5.send
  rw [if_neg (by omega), if_pos ⟨h9, h10⟩]

/-- C10 witness: an 11-byte response reporting controller error 0xC05C. -/
theorem c10_protocol_error_keeps_open_witness :
    FX5.send ⟨true⟩ [0, 0, 0, 0, 0, 0, 0, 2, 0, 0x5C, 0xC0] = (⟨true⟩, .error (.protocolError
      (FX5.to_int16_unsigned (([0, 0, 0, 0, 0, 0, 0, 2, 0, 0x5C, 0xC0] : List Nat).getD 10 0)
        (([0, 0, 0, 0, 0, 0, 0, 2, 0, 0x5C, 0xC0] : List Nat).getD 9 0))
      (FX5.errmsg (FX5.to_int16_unsigned
        (([0, 0, 0, 0, 0, 0, 0, 2, 0, 0x5C, 0xC0] : List Nat).getD 10 0)
        (([0, 0, 0, 0, 0, 0, 0, 2, 0, 0x5C, 0xC0] : List Nat).getD 9 0))))) :=
  c10_protocol_error_keeps_open ⟨true⟩ [0, 0, 0, 0, 0, 0, 0, 2, 0, 0x5C, 0xC0]
    (by decide) (by decide) (by decide)
